import Mathlib

/-!
Verification development for the chiron-ai scoring engine
(src/src/utils/scoringAlgorithms.ts).

The two exported functions `analyzeResume` and `analyzeInterviewPerformance`
are pure, synchronous transformations of plain input data.  They are embedded
here shallowly: JavaScript numbers are modelled as exact rationals (every
threshold and weight in the source is a short decimal, so branch decisions
agree with IEEE doubles on all inputs relevant to the verified properties),
JavaScript division - which never throws but yields the sentinels NaN and
Infinity on a zero divisor - is modelled by the sum type `JSRat`, and the
string heuristics (substring search, the small regular expressions, split,
trim) are implemented directly over `List Char`.

The asynchronous helper `extractTextFromFile` always resolves with a plain
string; its result is therefore passed to `analyzeResume` as an explicit
`textContent` argument (its `catch` branch in the source is unreachable).
-/

/- ### Character-list string primitives (JS `includes`, `split`, `trim`, regexes) -/

/-- Boolean list-prefix test, `decide`-friendly. -/
def isPrefixB : List Char → List Char → Bool
  | [], _ => true
  | _ :: _, [] => false
  | a :: t, b :: u => a == b && isPrefixB t u

/-- Boolean substring (contiguous infix) test on character lists. -/
def isInfixB : List Char → List Char → Bool
  | pat, [] => pat.isEmpty
  | pat, c :: t => isPrefixB pat (c :: t) || isInfixB pat t

/-- JavaScript `s.includes(sub)`. -/
def jsIncludes (s sub : String) : Bool := isInfixB sub.toList s.toList

/-- JavaScript `s.toLowerCase()` as a character list (ASCII, as in the source data). -/
def lowerList (s : String) : List Char := s.toList.map Char.toLower

/-- Fuel-driven worker for `countOccs`; the fuel (initially the list length,
which bounds every later suffix length) only makes the recursion structural. -/
def countOccsAux (pat : List Char) : ℕ → List Char → ℕ
  | 0, _ => 0
  | _ + 1, [] => 0
  | fuel + 1, c :: t =>
    if pat.length > 0 && isPrefixB pat (c :: t) then
      1 + countOccsAux pat fuel (List.drop (pat.length - 1) t)
    else
      countOccsAux pat fuel t

/-- Number of non-overlapping occurrences of `pat` in `l`, scanning left to
right: JavaScript `l.split(pat).length - 1`. -/
def countOccs (pat : List Char) (l : List Char) : ℕ :=
  countOccsAux pat l.length l

/-- Split on single characters satisfying `p` (JS `split` with a one-character
separator; for the class-plus regexes of the source the only difference is
extra empty segments, and every caller filters segments by trimmed length). -/
def splitOnP (p : Char → Bool) : List Char → List (List Char)
  | [] => [[]]
  | c :: t =>
    if p c then [] :: splitOnP p t
    else
      match splitOnP p t with
      | [] => [[c]]
      | h :: r => (c :: h) :: r

/-- JavaScript `trim`. -/
def trimChars (l : List Char) : List Char :=
  ((l.dropWhile Char.isWhitespace).reverse.dropWhile Char.isWhitespace).reverse

/-- Does the list end with a sentence terminator (regex `[.!?]$`)? -/
def endsWithTerm (l : List Char) : Bool :=
  match l.getLast? with
  | some c => c == '.' || c == '!' || c == '?'
  | none => false

/-- JavaScript regex word character `\w`. -/
def isWordChar (c : Char) : Bool := c.isAlphanum || c == '_'

/-- `pat` matches at the head of `l` and is followed by a word boundary. -/
def wbAt : List Char → List Char → Bool
  | [], [] => true
  | [], c :: _ => !(isWordChar c)
  | _ :: _, [] => false
  | p :: pt, c :: t => p == c && wbAt pt t

/-- Word-boundary-delimited occurrence of `pat` somewhere in the list
(regex `\b pat \b`); `prev` is the character before the current position. -/
def wbSearch (pat : List Char) : Option Char → List Char → Bool
  | prev, [] =>
    (match prev with | none => true | some p => !(isWordChar p)) && wbAt pat []
  | prev, c :: t =>
    ((match prev with | none => true | some p => !(isWordChar p)) && wbAt pat (c :: t))
      || wbSearch pat (some c) t

/-- Consume exactly `n` decimal digits, returning the rest. -/
def takeDigits : ℕ → List Char → Option (List Char)
  | 0, l => some l
  | _ + 1, [] => none
  | n + 1, c :: t => if c.isDigit then takeDigits n t else none

/-- Consume an optional `[-.]` separator (the `[-.]?` of the phone regex;
skipping it greedily is complete because a digit must follow). -/
def skipSep : List Char → List Char
  | [] => []
  | c :: t => if c == '-' || c == '.' then t else c :: t

/-- The phone regex `\d{3}[-.]?\d{3}[-.]?\d{4}` anchored at the head. -/
def phoneAt (l : List Char) : Bool :=
  match takeDigits 3 l with
  | none => false
  | some r1 =>
    match takeDigits 3 (skipSep r1) with
    | none => false
    | some r2 => (takeDigits 4 (skipSep r2)).isSome

/-- The phone regex anywhere in the list. -/
def phoneMatch : List Char → Bool
  | [] => false
  | c :: t => phoneAt (c :: t) || phoneMatch t

/-- Regex `\d+%|\$\d+|\d+ years` (a `\d+` alternative matches iff some single
digit is directly followed by the literal tail). -/
def hasMetric : List Char → Bool
  | a :: b :: t =>
    (a.isDigit && b == '%') || (a == '$' && b.isDigit)
      || (a.isDigit && isPrefixB " years".toList (b :: t))
      || hasMetric (b :: t)
  | _ => false

/-- Regex `\d+%|\$\d+|\d+ years|\d+ people|\d+ projects`. -/
def hasMetricExt : List Char → Bool
  | a :: b :: t =>
    (a.isDigit && b == '%') || (a == '$' && b.isDigit)
      || (a.isDigit && isPrefixB " years".toList (b :: t))
      || (a.isDigit && isPrefixB " people".toList (b :: t))
      || (a.isDigit && isPrefixB " projects".toList (b :: t))
      || hasMetricExt (b :: t)
  | _ => false

/-- Everything from the last `'.'` on (JS
`name.substring(name.lastIndexOf('.'))`, the whole string when there is no
dot, since `substring(-1)` clamps to 0). -/
def fromLastDot (l : List Char) : List Char :=
  if '.' ∈ l then '.' :: (l.reverse.takeWhile (fun c => c ≠ '.')).reverse else l

/- ### JavaScript number semantics -/

/-- JavaScript `Math.round` (half toward positive infinity). -/
def jsRound (x : ℚ) : ℤ := ⌊x + 0.5⌋

/-- A JavaScript number that may be a division-by-zero sentinel. -/
inductive JSRat where
  | nan : JSRat
  | inf : JSRat
  | ninf : JSRat
  | val : ℚ → JSRat
deriving DecidableEq

/-- JavaScript division: `0/0 = NaN`, `a/0 = ±Infinity` for `a ≠ 0`. -/
def jsDiv (a b : ℚ) : JSRat :=
  if b = 0 then
    if a = 0 then JSRat.nan else if 0 < a then JSRat.inf else JSRat.ninf
  else JSRat.val (a / b)

/-- JavaScript `<` against a finite constant: false for NaN, false for
`+Infinity`, true for `-Infinity`. -/
def jlt : JSRat → ℚ → Bool
  | JSRat.nan, _ => false
  | JSRat.inf, _ => false
  | JSRat.ninf, _ => true
  | JSRat.val x, c => decide (x < c)

/-- JavaScript `>=` against a finite constant: false for NaN and
`-Infinity`, true for `+Infinity`. -/
def jge : JSRat → ℚ → Bool
  | JSRat.nan, _ => false
  | JSRat.inf, _ => true
  | JSRat.ninf, _ => false
  | JSRat.val x, c => decide (c ≤ x)

/-- JavaScript `toFixed(1)` for a finite number (round to nearest tenth,
ties toward positive infinity, then print). -/
def toFixed1 (x : ℚ) : String :=
  let n : ℤ := jsRound (x * 10)
  if n < 0 then "-" ++ toString ((-n) / 10) ++ "." ++ toString ((-n) % 10)
  else toString (n / 10) ++ "." ++ toString (n % 10)

/-- `(r * 100).toFixed(1)` on a possibly-sentinel number. -/
def jsTimes100ToFixed1 : JSRat → String
  | JSRat.nan => "NaN"
  | JSRat.inf => "Infinity"
  | JSRat.ninf => "-Infinity"
  | JSRat.val x => toFixed1 (x * 100)

/-- `completionRate = questionsAnswered / totalQuestions` exactly as the
source computes it (line 302), with no divide-by-zero guard. -/
def completionRate (questionsAnswered totalQuestions : ℕ) : JSRat :=
  jsDiv (questionsAnswered : ℚ) (totalQuestions : ℚ)

/-- `avgTimePerQuestion` (source lines 303-305): the mean of the recorded
times, 0 for an empty list. -/
def avgTimePerQuestion (timeSpentPerQuestion : List ℚ) : ℚ :=
  if timeSpentPerQuestion.length > 0 then
    timeSpentPerQuestion.sum / (timeSpentPerQuestion.length : ℚ)
  else 0

/- ### Resume ATS scoring (`analyzeResume`, source lines 20-262) -/

/-- Output record of the resume scorer.  The accumulated score is a natural
number in the source (all weights are integers and every subtraction is
clamped at 0 by `Math.max`). -/
structure ResumeAnalysis where
  atsScore : ℕ
  feedback : String
  strengths : List String
  improvements : List String
deriving DecidableEq

/-- The uploaded file metadata the scorer reads (`file.name`, `file.size`). -/
structure RFile where
  name : String
  size : ℕ
deriving DecidableEq

/-- Per-role keyword profile (source lines 91-132). -/
structure RoleReq where
  required : List String
  preferred : List String
  exclusions : List String

/-- The `roleKeywords` table; an unknown role yields empty keyword sets
(source line 134). -/
def roleKeywords (selectedRole : String) : RoleReq :=
  if selectedRole = "Software Engineer" then
    { required := ["software", "development", "programming", "code"],
      preferred := ["javascript", "python", "react", "node", "git", "api", "database", "frontend", "backend", "html", "css"],
      exclusions := ["microsoft word", "data entry", "customer service"] }
  else if selectedRole = "Product Manager" then
    { required := ["product", "management", "strategy"],
      preferred := ["roadmap", "stakeholder", "agile", "analytics", "user", "market", "launch", "metrics"],
      exclusions := ["coding", "programming", "technical implementation"] }
  else if selectedRole = "Data Scientist" then
    { required := ["data", "analysis", "statistics"],
      preferred := ["python", "machine learning", "sql", "modeling", "visualization", "pandas", "numpy", "scikit"],
      exclusions := ["basic excel", "data entry", "administrative"] }
  else if selectedRole = "UX Designer" then
    { required := ["design", "user", "experience"],
      preferred := ["wireframe", "prototype", "usability", "research", "figma", "sketch", "adobe", "user-centered"],
      exclusions := ["graphic design only", "print design", "marketing design"] }
  else if selectedRole = "Sales Representative" then
    { required := ["sales", "revenue", "client"],
      preferred := ["relationship", "target", "crm", "negotiation", "quota", "pipeline", "prospecting"],
      exclusions := ["cashier", "retail associate", "customer service only"] }
  else if selectedRole = "Marketing Manager" then
    { required := ["marketing", "campaign", "brand"],
      preferred := ["digital", "analytics", "roi", "content", "social media", "seo", "conversion"],
      exclusions := ["sales only", "administrative assistant", "data entry"] }
  else if selectedRole = "Business Analyst" then
    { required := ["business", "analysis", "requirements"],
      preferred := ["process", "stakeholder", "documentation", "workflow", "improvement", "metrics"],
      exclusions := ["basic admin", "data entry", "customer service"] }
  else if selectedRole = "DevOps Engineer" then
    { required := ["devops", "infrastructure", "deployment"],
      preferred := ["aws", "docker", "kubernetes", "ci/cd", "automation", "monitoring", "cloud", "linux"],
      exclusions := ["basic IT support", "help desk", "desktop support"] }
  else
    { required := [], preferred := [], exclusions := [] }

/-- `file.name.toLowerCase().substring(file.name.lastIndexOf('.'))`
(source line 38). -/
def fileExtensionOf (name : String) : String :=
  String.mk (fromLastDot (lowerList name))

/-- Accumulator mirroring the mutable `score` / `strengths` / `improvements`
of the source. -/
structure ResumeAcc where
  score : ℕ
  strengths : List String
  improvements : List String

/-- Score-banded final feedback of the resume scorer (source lines 241-254). -/
def resumeFeedback (score : ℕ) : String :=
  if score = 0 then
    "REJECTED: Resume fails basic ATS requirements. Cannot proceed to human review."
  else if score < 20 then
    "CRITICAL FAILURE (" ++ toString score ++ "%): Resume would be auto-rejected by ATS systems. Major restructuring required."
  else if score < 40 then
    "POOR (" ++ toString score ++ "%): Resume unlikely to pass ATS screening. Significant improvements needed in keywords, format, and content."
  else if score < 60 then
    "BELOW AVERAGE (" ++ toString score ++ "%): Resume has basic requirements but lacks optimization. May pass simple ATS but will rank low."
  else if score < 75 then
    "AVERAGE (" ++ toString score ++ "%): Resume meets most ATS requirements but needs refinement to stand out among candidates."
  else
    "GOOD (" ++ toString score ++ "%): Resume well-optimized for ATS systems. Should pass most screening filters and reach human reviewers."

/-- `analyzeResume` (source lines 20-262).  `textContent` is the string the
asynchronous `extractTextFromFile` helper resolves with (it never rejects,
so the `catch` branch of the source is dead code). -/
def analyzeResume (file : Option RFile) (selectedRole : String) (textContent : String) : ResumeAnalysis :=
  match file with
  | none =>
    { atsScore := 0,
      feedback := "CRITICAL: No resume uploaded. ATS systems immediately reject applications without resumes.",
      strengths := [],
      improvements := ["Upload a resume in PDF, DOC, or DOCX format", "Ensure file is under 2MB", "Use standard resume format"] }
  | some file =>
    let allowedTypes := [".pdf", ".doc", ".docx"]
    let fileExtension := fileExtensionOf file.name
    if fileExtension ∉ allowedTypes then
      { atsScore := 0,
        feedback := "Resume format incompatible with ATS systems",
        strengths := [],
        improvements := ["CRITICAL: File format rejected by ATS - use PDF, DOC, or DOCX only", "ATS systems auto-reject non-standard formats"] }
    else
      let a0 : ResumeAcc := { score := 3, strengths := ["Acceptable file format"], improvements := [] }
      if file.size > 2000000 then
        { atsScore := 5,
          feedback := "Resume file size exceeds ATS limits",
          strengths := a0.strengths,
          improvements := a0.improvements ++ ["CRITICAL: File too large - ATS systems reject files over 2MB"] }
      else
        let a1 : ResumeAcc :=
          if file.size < 30000 then
            { a0 with
                score := a0.score - 5
                improvements := a0.improvements ++ ["CRITICAL: File too small - likely missing essential content"] }
          else if 50000 ≤ file.size ∧ file.size ≤ 500000 then
            { a0 with score := a0.score + 2, strengths := a0.strengths ++ ["Appropriate file size"] }
          else a0
        let fileName := lowerList file.name
        let a2 : ResumeAcc :=
          if !(isInfixB "resume".toList fileName || isInfixB "cv".toList fileName) then
            { a1 with
                score := a1.score - 3
                improvements := a1.improvements ++ ["MAJOR: Filename should contain \x27resume\x27 or \x27CV\x27 for ATS recognition"] }
          else
            { a1 with score := a1.score + 2, strengths := a1.strengths ++ ["Professional filename"] }
        let a3 : ResumeAcc :=
          if isInfixB "draft".toList fileName || isInfixB "temp".toList fileName || isInfixB "copy".toList fileName then
            { a2 with
                score := a2.score - 5
                improvements := a2.improvements ++ ["CRITICAL: Remove draft/temp/copy from filename - appears unprofessional"] }
          else a2
        let roleData := roleKeywords selectedRole
        let textLower := lowerList textContent
        let requiredFound :=
          (roleData.required.filter (fun keyword => isInfixB keyword.toList textLower || isInfixB keyword.toList fileName)).length
        let a4 : ResumeAcc :=
          if requiredFound = 0 then
            { a3 with
                score := 0
                improvements := a3.improvements ++ ["CRITICAL: Missing ALL required keywords for " ++ selectedRole] }
          else if requiredFound < roleData.required.length then
            { a3 with
                score := a3.score - 15
                improvements := a3.improvements ++ ["MAJOR: Missing " ++ toString (roleData.required.length - requiredFound) ++ " required keywords"] }
          else
            { a3 with score := a3.score + 10, strengths := a3.strengths ++ ["Contains required role keywords"] }
        let preferredFound :=
          (roleData.preferred.filter (fun keyword => isInfixB keyword.toList textLower || isInfixB keyword.toList fileName)).length
        let preferredPercentage := jsDiv (preferredFound : ℚ) (roleData.preferred.length : ℚ)
        let a5 : ResumeAcc :=
          if jge preferredPercentage 0.7 then
            { a4 with score := a4.score + 15, strengths := a4.strengths ++ ["Excellent keyword optimization"] }
          else if jge preferredPercentage 0.5 then
            { a4 with score := a4.score + 10, strengths := a4.strengths ++ ["Good keyword presence"] }
          else if jge preferredPercentage 0.3 then
            { a4 with score := a4.score + 5, improvements := a4.improvements ++ ["Add more role-specific keywords"] }
          else
            { a4 with
                score := a4.score - 10
                improvements := a4.improvements ++ ["MAJOR: Severely lacking role-specific keywords"] }
        let exclusionsFound :=
          (roleData.exclusions.filter (fun keyword => isInfixB keyword.toList textLower || isInfixB keyword.toList fileName)).length
        let a6 : ResumeAcc :=
          if exclusionsFound > 0 then
            { a5 with
                score := a5.score - exclusionsFound * 5
                improvements := a5.improvements ++ ["WARNING: Contains " ++ toString exclusionsFound ++ " irrelevant/negative keywords"] }
          else a5
        let essentialSections := ["experience", "education", "skills", "contact"]
        let sectionsFound :=
          (essentialSections.filter (fun sec =>
            isInfixB sec.toList textLower || isInfixB (sec ++ "s").toList textLower || isInfixB sec.toList fileName)).length
        let a7 : ResumeAcc :=
          if sectionsFound < 3 then
            { a6 with
                score := a6.score - 20
                improvements := a6.improvements ++ ["CRITICAL: Missing essential resume sections (Experience, Education, Skills, Contact)"] }
          else
            { a6 with score := a6.score + 5, strengths := a6.strengths ++ ["Contains essential resume sections"] }
        let estimatedWords := file.size / 6
        let a8 : ResumeAcc :=
          if estimatedWords < 200 then
            { a7 with
                score := a7.score - 15
                improvements := a7.improvements ++ ["CRITICAL: Resume appears too brief - ATS expects 300-600 words minimum"] }
          else if estimatedWords > 1200 then
            { a7 with
                score := a7.score - 10
                improvements := a7.improvements ++ ["MAJOR: Resume appears too lengthy - ATS prefers concise 1-2 pages"] }
          else if 300 ≤ estimatedWords ∧ estimatedWords ≤ 800 then
            { a7 with score := a7.score + 8, strengths := a7.strengths ++ ["Appropriate resume length"] }
          else a7
        let hasEmail := jsIncludes textContent "@" || isInfixB "email".toList fileName
        let hasPhone := phoneMatch textContent.toList || isInfixB "phone".toList fileName
        let a9 : ResumeAcc :=
          if !hasEmail && !hasPhone then
            { a8 with
                score := a8.score - 10
                improvements := a8.improvements ++ ["CRITICAL: No contact information detected"] }
          else if !hasEmail || !hasPhone then
            { a8 with
                score := a8.score - 5
                improvements := a8.improvements ++ ["MAJOR: Missing email or phone number"] }
          else
            { a8 with score := a8.score + 3, strengths := a8.strengths ++ ["Contains contact information"] }
        let score := min a9.score 85
        { atsScore := score,
          feedback := resumeFeedback score,
          strengths := a9.strengths,
          improvements := a9.improvements }

/- ### Interview scoring: response-content analysis (source lines 563-717) -/

/-- The `ResponseAnalysis` profile, each metric on a 0-10 scale. -/
structure ResponseAnalysis where
  qualityScore : ℚ
  communicationScore : ℚ
  skillsRelevance : ℚ
  clarity : ℚ
  confidence : ℚ
deriving DecidableEq

/-- `getRoleKeywords` (source lines 704-717). -/
def getRoleKeywords (role : String) : List String :=
  if role = "Software Engineer" then
    ["javascript", "python", "react", "api", "database", "algorithm", "framework", "debugging"]
  else if role = "Product Manager" then
    ["roadmap", "stakeholder", "metrics", "user research", "agile", "sprint", "feature"]
  else if role = "Data Scientist" then
    ["python", "machine learning", "statistics", "modeling", "data analysis", "visualization"]
  else if role = "UX Designer" then
    ["user experience", "wireframe", "prototype", "usability", "user research", "design thinking"]
  else if role = "Sales Representative" then
    ["revenue", "pipeline", "prospecting", "closing", "relationship", "quota", "crm"]
  else if role = "Marketing Manager" then
    ["campaign", "roi", "conversion", "analytics", "brand", "digital marketing"]
  else if role = "Business Analyst" then
    ["requirements", "process improvement", "stakeholder", "documentation", "analysis"]
  else if role = "DevOps Engineer" then
    ["aws", "docker", "kubernetes", "ci/cd", "infrastructure", "automation", "monitoring"]
  else []

/-- `Math.round(x * 10) / 10`: round to one decimal place. -/
def round1 (x : ℚ) : ℚ := (jsRound (x * 10) : ℚ) / 10

/-- One iteration of the `responses.forEach` loop of `analyzeResponseContent`
(source lines 584-621). -/
def responseStep (roleKws : List String) (st : ResponseAnalysis) (response : String) : ResponseAnalysis :=
  let words := (splitOnP (fun c => c == ' ') (lowerList response)).filter (fun word => word.length > 0)
  let q1 :=
    if words.length < 10 then max (st.qualityScore - 2) 0
    else if words.length > 50 then min (st.qualityScore + 1) 10
    else st.qualityScore
  let hasExample :=
    jsIncludes response "example" || jsIncludes response "specifically" || hasMetric response.toList
  let q2 := if hasExample then min (q1 + 1.5) 10 else q1
  let sr1 := if hasExample then min (st.skillsRelevance + 1) 10 else st.skillsRelevance
  let sentences :=
    (splitOnP (fun c => c == '.' || c == '!' || c == '?') response.toList).filter
      (fun s => (trimChars s).length > 0)
  let comm := if sentences.length > 2 then min (st.communicationScore + 0.5) 10 else st.communicationScore
  let cl := if sentences.length > 2 then min (st.clarity + 0.5) 10 else st.clarity
  let conf :=
    if jsIncludes response "I successfully" || jsIncludes response "I achieved" || jsIncludes response "I led" then
      min (st.confidence + 1) 10
    else st.confidence
  let keywordMatches := (roleKws.filter (fun keyword => isInfixB (lowerList keyword) (lowerList response))).length
  let sr2 := if keywordMatches > 0 then min (sr1 + (keywordMatches : ℚ) * 0.5) 10 else sr1
  { qualityScore := q2
    communicationScore := comm
    skillsRelevance := sr2
    clarity := cl
    confidence := conf }

/-- `analyzeResponseContent` (source lines 573-630): all-zero profile for an
empty response list, otherwise a fold from the neutral baseline 5 with a
final rounding to one decimal. -/
def analyzeResponseContent (responses : List String) (role : String) : ResponseAnalysis :=
  if responses.length = 0 then
    { qualityScore := 0, communicationScore := 0, skillsRelevance := 0, clarity := 0, confidence := 0 }
  else
    let st := responses.foldl (responseStep (getRoleKeywords role))
      { qualityScore := 5, communicationScore := 5, skillsRelevance := 5, clarity := 5, confidence := 5 }
    { qualityScore := round1 st.qualityScore
      communicationScore := round1 st.communicationScore
      skillsRelevance := round1 st.skillsRelevance
      clarity := round1 st.clarity
      confidence := round1 st.confidence }

/-- Counters of `analyzeGrammarAndSpeech`. -/
structure GrammarIssues where
  fillerWords : ℕ
  incompleteThoughts : ℕ
  grammarErrors : ℕ
deriving DecidableEq

/-- One iteration of the `responses.forEach` loop of `analyzeGrammarAndSpeech`
(source lines 637-658). -/
def grammarStep (st : GrammarIssues) (response : String) : GrammarIssues :=
  let fillerPatterns := ["um", "uh", "like", "you know", "actually", "basically"]
  let fw := fillerPatterns.foldl (fun n filler => n + countOccs filler.toList (lowerList response)) 0
  let sentences := splitOnP (fun c => c == '.' || c == '!' || c == '?') response.toList
  let inc := (sentences.filter (fun s => (trimChars s).length > 10 && !endsWithTerm (trimChars s))).length
  let ge :=
    if jsIncludes response "was were" || jsIncludes response "is are"
        || wbSearch "i is".toList none response.toList
        || wbSearch "you was".toList none response.toList
        || wbSearch "they was".toList none response.toList then 1 else 0
  { fillerWords := st.fillerWords + fw
    incompleteThoughts := st.incompleteThoughts + inc
    grammarErrors := st.grammarErrors + ge }

/-- `analyzeGrammarAndSpeech` (source lines 632-661). -/
def analyzeGrammarAndSpeech (responses : List String) : GrammarIssues :=
  responses.foldl grammarStep { fillerWords := 0, incompleteThoughts := 0, grammarErrors := 0 }

/-- Output of `analyzeSkillsDemonstration`. -/
structure SkillsDemonstration where
  technicalAccuracy : ℚ
  industryKnowledge : ℚ
  problemSolving : ℚ
  specificExamples : ℕ
  overallCompetency : ℚ
deriving DecidableEq

/-- Mutable state of the `analyzeSkillsDemonstration` loop. -/
structure SDState where
  technicalAccuracy : ℚ
  industryKnowledge : ℚ
  problemSolving : ℚ
  specificExamples : ℕ

/-- One iteration of the `responses.forEach` loop of
`analyzeSkillsDemonstration` (source lines 669-691). -/
def skillsStep (roleKws : List String) (st : SDState) (response : String) : SDState :=
  let technicalTerms := (roleKws.filter (fun term => isInfixB (lowerList term) (lowerList response))).length
  let ta :=
    if technicalTerms > 0 then min (st.technicalAccuracy + (technicalTerms : ℚ) * 0.5) 10
    else st.technicalAccuracy
  let ik :=
    if technicalTerms > 0 then min (st.industryKnowledge + (technicalTerms : ℚ) * 0.3) 10
    else st.industryKnowledge
  let ps :=
    if jsIncludes response "problem" || jsIncludes response "challenge"
        || jsIncludes response "solution" || jsIncludes response "approach" then
      min (st.problemSolving + 1) 10
    else st.problemSolving
  let se := if hasMetricExt response.toList then st.specificExamples + 1 else st.specificExamples
  { technicalAccuracy := ta
    industryKnowledge := ik
    problemSolving := ps
    specificExamples := se }

/-- `analyzeSkillsDemonstration` (source lines 663-702). -/
def analyzeSkillsDemonstration (responses : List String) (role : String) : SkillsDemonstration :=
  let st := responses.foldl (skillsStep (getRoleKeywords role))
    { technicalAccuracy := 3, industryKnowledge := 3, problemSolving := 3, specificExamples := 0 }
  let overallCompetency := (st.technicalAccuracy + st.industryKnowledge + st.problemSolving) / 3
  { technicalAccuracy := round1 st.technicalAccuracy
    industryKnowledge := round1 st.industryKnowledge
    problemSolving := round1 st.problemSolving
    specificExamples := st.specificExamples
    overallCompetency := round1 overallCompetency }

/- ### Interview scoring: the four sub-score blocks (source lines 278-561) -/

/-- A sub-score together with the strength/improvement messages its block
pushed, in push order. -/
structure SubResult where
  score : ℚ
  strengths : List String
  improvements : List String
deriving DecidableEq

/-- Completion-rate banding of the body-language score (source lines
319-340): the base value when the camera was used. -/
def bodyCompletionBand (questionsAnswered : ℕ) (completionRate : JSRat) : SubResult :=
  if questionsAnswered = 0 then
    { score := 0
      strengths := []
      improvements := ["CRITICAL: No responses despite camera - shows complete disengagement"] }
  else if jlt completionRate 0.3 then
    { score := 2
      strengths := []
      improvements := ["SEVERE: Answered <30% questions - appears uninterested or unprepared"] }
  else if jlt completionRate 0.5 then
    { score := 5
      strengths := []
      improvements := ["POOR: <50% completion suggests nervousness or lack of preparation"] }
  else if jlt completionRate 0.7 then
    { score := 12
      strengths := []
      improvements := ["BELOW AVERAGE: Complete at least 70% to show engagement"] }
  else if jlt completionRate 0.8 then
    { score := 25
      strengths := []
      improvements := ["AVERAGE: Aim for 80%+ completion for professional impression"] }
  else if jlt completionRate 0.95 then
    { score := 45
      strengths := ["Good visual engagement"]
      improvements := [] }
  else
    { score := 60
      strengths := ["Excellent visual participation"]
      improvements := [] }

/-- Rushed/short response-time penalties on the body-language score
(source lines 342-352). -/
def bodyTimingAdjust (b : ℚ) (questionsAnswered : ℕ) (timeSpentPerQuestion : List ℚ) : ℚ × List String :=
  let rushResponses := (timeSpentPerQuestion.filter (fun time => time < 8)).length
  let shortResponses := (timeSpentPerQuestion.filter (fun time => time < 15)).length
  if (questionsAnswered : ℚ) * 0.4 < (rushResponses : ℚ) then
    (max (b - 25) 0, ["MAJOR: Too many rushed responses (<8s) - shows panic or disinterest"])
  else if (questionsAnswered : ℚ) * 0.6 < (shortResponses : ℚ) then
    (max (b - 15) 0, ["WARNING: Many brief responses - provide more thoughtful answers"])
  else (b, [])

/-- Response-quality bonus on the body-language score (source lines 354-360). -/
def bodyQualityBonus (b : ℚ) (ra : ResponseAnalysis) : ℚ × List String :=
  if ra.qualityScore > 7 then (min (b + 15) 100, ["Confident delivery with quality content"])
  else if ra.qualityScore > 5 then (min (b + 8) 85, [])
  else (b, [])

/-- Body Language Score block (source lines 312-361). -/
def bodyLanguageBlock (cameraUsed : Bool) (questionsAnswered : ℕ) (completionRate : JSRat)
    (timeSpentPerQuestion : List ℚ) (ra : ResponseAnalysis) : SubResult :=
  if !cameraUsed then
    { score := 0
      strengths := []
      improvements := ["CRITICAL: Camera disabled - cannot assess professional presence",
                       "Modern interviews require video presence"] }
  else
    let band := bodyCompletionBand questionsAnswered completionRate
    let r1 := bodyTimingAdjust band.score questionsAnswered timeSpentPerQuestion
    let r2 := bodyQualityBonus r1.1 ra
    { score := r2.1
      strengths := band.strengths ++ r2.2
      improvements := band.improvements ++ r1.2 }

/-- Filler-word / incomplete-thought / grammar-error penalties on the grammar
score (source lines 377-392): three independent checks in sequence. -/
def grammarIssuesAdjust (g : ℚ) (issues : GrammarIssues) (responseCount : ℕ) : ℚ × List String :=
  let r1 :=
    if responseCount * 2 < issues.fillerWords then
      (max (g - 20) 0, ["MAJOR: Excessive filler words (um, uh, like) - practice fluency"])
    else (g, ([] : List String))
  let r2 :=
    if (responseCount : ℚ) * 0.3 < (issues.incompleteThoughts : ℚ) then
      (max (r1.1 - 15) 0, r1.2 ++ ["WARNING: Many incomplete thoughts - practice structured responses"])
    else r1
  if (responseCount : ℚ) * 0.2 < (issues.grammarErrors : ℚ) then
    (max (r2.1 - 10) 0, r2.2 ++ ["NOTE: Grammar issues detected - review professional communication"])
  else r2

/-- Average-length penalties on the grammar score (source lines 394-404). -/
def grammarTimeAdjust (g : ℚ) (avgTimePerQuestion : ℚ) : ℚ × List String :=
  if avgTimePerQuestion < 10 then
    (max (g - 25) 0, ["SEVERE: Responses too brief to demonstrate communication skills"])
  else if avgTimePerQuestion < 20 then
    (max (g - 15) 0, ["POOR: Very brief responses - elaborate with examples"])
  else if avgTimePerQuestion > 120 then
    (max (g - 10) 0, ["WARNING: Responses too lengthy - practice conciseness"])
  else (g, [])

/-- Completion-consistency multiplier on the grammar score (source lines
406-413): the completion-rate-banded component of the grammar sub-score. -/
def grammarCompletionAdjust (g : ℚ) (completionRate : JSRat) : ℚ × List String :=
  if jlt completionRate 0.5 then
    (max (g * 0.3) 0, ["CRITICAL: Low completion severely limits communication assessment"])
  else if jlt completionRate 0.7 then
    (max (g * 0.6) 0, ["MAJOR: Inconsistent participation affects communication evaluation"])
  else (g, [])

/-- Clarity strength/improvement notes of the grammar block (source lines
415-422). -/
def grammarClarityNotes (ra : ResponseAnalysis) : List String × List String :=
  if ra.clarity > 8 then (["Excellent clarity and articulation"], [])
  else if ra.clarity > 6 then (["Good communication clarity"], [])
  else ([], ["IMPROVE: Work on clearer articulation and structure"])

/-- Grammar & Speech Score block (source lines 363-424). -/
def grammarBlock (microphoneUsed : Bool) (questionsAnswered : ℕ) (completionRate : JSRat)
    (avgTimePerQuestion : ℚ) (responses : List String) (ra : ResponseAnalysis) : SubResult :=
  if !microphoneUsed then
    { score := 0
      strengths := []
      improvements := ["CRITICAL: Microphone disabled - cannot assess communication",
                       "Professional roles require verbal communication skills"] }
  else
    let grammarScore : ℚ := ((⌊ra.communicationScore * 10⌋ : ℤ) : ℚ)
    if questionsAnswered = 0 then
      { score := 0
        strengths := []
        improvements := ["CRITICAL: No verbal responses detected"] }
    else
      let grammarIssues := analyzeGrammarAndSpeech responses
      let r1 := grammarIssuesAdjust grammarScore grammarIssues responses.length
      let r2 := grammarTimeAdjust r1.1 avgTimePerQuestion
      let r3 := grammarCompletionAdjust r2.1 completionRate
      let notes := grammarClarityNotes ra
      { score := r3.1
        strengths := notes.1
        improvements := r1.2 ++ r2.2 ++ r3.2 ++ notes.2 }

/-- Competency-evaluation penalties on the skills score (source lines
434-455): four independent checks in sequence. -/
def skillsDemoAdjust (s : ℚ) (sd : SkillsDemonstration) : ℚ × List String :=
  let r1 :=
    if sd.technicalAccuracy < 3 then
      (max (s - 30) 0, ["MAJOR: Lacks technical accuracy for role requirements"])
    else (s, ([] : List String))
  let r2 :=
    if sd.industryKnowledge < 4 then
      (max (r1.1 - 20) 0, r1.2 ++ ["WARNING: Limited industry knowledge demonstrated"])
    else r1
  let r3 :=
    if sd.problemSolving < 3 then
      (max (r2.1 - 25) 0, r2.2 ++ ["CRITICAL: Poor problem-solving approach shown"])
    else r2
  if sd.specificExamples < 2 then
    (max (r3.1 - 15) 0, r3.2 ++ ["MAJOR: Provide specific examples to demonstrate experience"])
  else r3

/-- Completion-based multiplier on the skills score (source lines 457-467):
the completion-rate-banded component of the skills sub-score. -/
def skillsCompletionAdjust (s : ℚ) (completionRate : JSRat) : ℚ × List String :=
  if jlt completionRate 0.4 then
    (max (s * 0.2) 0, ["SEVERE: Insufficient responses to evaluate competency"])
  else if jlt completionRate 0.6 then
    (max (s * 0.5) 0, ["POOR: Need more responses to showcase abilities"])
  else if jlt completionRate 0.8 then
    (max (s * 0.7) 0, ["AVERAGE: Complete more to fully demonstrate skills"])
  else (s, [])

/-- Response-depth penalties on the skills score (source lines 469-476). -/
def skillsTimeAdjust (s : ℚ) (avgTimePerQuestion : ℚ) : ℚ × List String :=
  if avgTimePerQuestion < 20 then
    (max (s - 20) 0, ["MAJOR: Responses too brief to show expertise depth"])
  else if avgTimePerQuestion < 30 then
    (max (s - 10) 0, ["WARNING: Provide more detailed technical examples"])
  else (s, [])

/-- Competency strength/improvement notes of the skills block (source lines
478-485). -/
def skillsCompetencyNotes (sd : SkillsDemonstration) (selectedRole : String) : List String × List String :=
  if sd.overallCompetency > 8 then (["Excellent " ++ selectedRole ++ " expertise demonstrated"], [])
  else if sd.overallCompetency > 6 then (["Good role-specific knowledge shown"], [])
  else ([], ["IMPROVE: Strengthen role-specific competencies"])

/-- Skills Score block (source lines 426-486). -/
def skillsBlock (questionsAnswered : ℕ) (completionRate : JSRat) (avgTimePerQuestion : ℚ)
    (responses : List String) (selectedRole : String) (ra : ResponseAnalysis) : SubResult :=
  let skillsScore : ℚ := ((⌊ra.skillsRelevance * 10⌋ : ℤ) : ℚ)
  if questionsAnswered = 0 then
    { score := 0
      strengths := []
      improvements := ["CRITICAL: Cannot assess skills without responses",
                       "Complete interview to demonstrate competencies"] }
  else
    let skillsDemonstration := analyzeSkillsDemonstration responses selectedRole
    let r1 := skillsDemoAdjust skillsScore skillsDemonstration
    let r2 := skillsCompletionAdjust r1.1 completionRate
    let r3 := skillsTimeAdjust r2.1 avgTimePerQuestion
    let notes := skillsCompetencyNotes skillsDemonstration selectedRole
    { score := r3.1
      strengths := notes.1
      improvements := r1.2 ++ r2.2 ++ r3.2 ++ notes.2 }

/-- Completion-based multiplier on the confidence score (source lines
499-509): the completion-rate-banded component of the confidence sub-score. -/
def confidenceCompletionAdjust (c : ℚ) (completionRate : JSRat) : ℚ × List String :=
  if jlt completionRate 0.3 then
    (max (c * 0.1) 0, ["SEVERE: Very low completion suggests extreme nervousness"])
  else if jlt completionRate 0.5 then
    (max (c * 0.3) 0, ["POOR: Low completion indicates confidence issues"])
  else if jlt completionRate 0.7 then
    (max (c * 0.6) 0, ["BELOW AVERAGE: Build confidence through better preparation"])
  else (c, [])

/-- Response-quality impact on the confidence score (source lines 511-521);
returns (score, strengths pushed, improvements pushed). -/
def confidenceTimeAdjust (c : ℚ) (avgTimePerQuestion : ℚ) (ra : ResponseAnalysis) :
    ℚ × List String × List String :=
  if avgTimePerQuestion < 8 then
    (max (c - 30) 0, [], ["MAJOR: Rushed responses suggest panic or lack of preparation"])
  else if avgTimePerQuestion < 15 then
    (max (c - 15) 0, [], ["WARNING: Brief responses may indicate nervousness"])
  else if avgTimePerQuestion ≥ 30 ∧ ra.clarity > 6 then
    (min (c + 10) 100, ["Confident, well-structured responses"], [])
  else (c, [], [])

/-- Consistency bonus on the confidence score (source lines 523-527). -/
def confidenceCompletionBonus (c : ℚ) (interviewCompleted : Bool) (completionRate : JSRat) :
    ℚ × List String :=
  if interviewCompleted && jge completionRate 0.9 then
    (min (c + 15) 100, ["Excellent confidence through complete participation"])
  else (c, [])

/-- Confidence Score block (source lines 488-528). -/
def confidenceBlock (cameraUsed microphoneUsed : Bool) (questionsAnswered : ℕ)
    (completionRate : JSRat) (avgTimePerQuestion : ℚ) (interviewCompleted : Bool)
    (ra : ResponseAnalysis) : SubResult :=
  if !cameraUsed || !microphoneUsed then
    { score := 0
      strengths := []
      improvements := ["CRITICAL: Cannot assess confidence without full A/V setup"] }
  else if questionsAnswered = 0 then
    { score := 0
      strengths := []
      improvements := ["CRITICAL: No engagement indicates lack of confidence"] }
  else
    let confidenceScore : ℚ := ((⌊ra.confidence * 10⌋ : ℤ) : ℚ)
    let r1 := confidenceCompletionAdjust confidenceScore completionRate
    let r2 := confidenceTimeAdjust r1.1 avgTimePerQuestion ra
    let r3 := confidenceCompletionBonus r2.1 interviewCompleted completionRate
    { score := r3.1
      strengths := r2.2.1 ++ r3.2
      improvements := r1.2 ++ r2.2.2 }

/- ### Interview scoring: assembly (`analyzeInterviewPerformance`) -/

/-- The interview session telemetry (the `interviewData` argument,
source lines 279-289); an absent `responses` array is the empty list
(the source defaults it to `[]`). -/
structure InterviewInput where
  questionsAnswered : ℕ
  totalQuestions : ℕ
  timeSpentPerQuestion : List ℚ
  cameraUsed : Bool
  microphoneUsed : Bool
  interviewCompleted : Bool
  selectedRole : String
  interviewDuration : ℚ
  responses : List String
deriving DecidableEq

/-- Output record of the interview scorer.  `overallScore` is an integer
(`Math.round`); the sub-scores are JavaScript numbers, modelled as exact
rationals. -/
structure InterviewAnalysis where
  overallScore : ℤ
  bodyLanguageScore : ℚ
  grammarScore : ℚ
  skillsScore : ℚ
  confidenceScore : ℚ
  feedback : String
  strengths : List String
  improvements : List String
deriving DecidableEq

/-- Score-banded final feedback of the interview scorer (source lines
534-549). -/
def interviewFeedback (overallScore : ℤ) (completionRate : JSRat) (avgTimePerQuestion : ℚ)
    (cameraUsed microphoneUsed : Bool) (selectedRole : String) : String :=
  if overallScore = 0 then
    "INTERVIEW FAILURE: Complete lack of professional interview readiness. Cannot recommend for any position without fundamental improvements in setup, preparation, and engagement."
  else if overallScore < 15 then
    "SEVERE DEFICIENCY (" ++ toString overallScore ++ "%): Performance indicates fundamental lack of interview skills and professional readiness. Completed " ++ jsTimes100ToFixed1 completionRate ++ "% with " ++ toFixed1 avgTimePerQuestion ++ "s avg response time. Requires comprehensive interview training, technical setup review, and extensive practice before attempting real interviews."
  else if overallScore < 30 then
    "POOR PERFORMANCE (" ++ toString overallScore ++ "%): Interview demonstrates significant preparation and communication deficiencies. " ++ jsTimes100ToFixed1 completionRate ++ "% completion rate with " ++ toFixed1 avgTimePerQuestion ++ "s responses indicates either technical difficulties or inadequate preparation. Must address: " ++ (if !cameraUsed then "video setup," else "") ++ " " ++ (if !microphoneUsed then "audio setup," else "") ++ " response quality, and professional communication standards."
  else if overallScore < 50 then
    "BELOW STANDARD (" ++ toString overallScore ++ "%): Basic interview participation detected but falls short of professional expectations. " ++ jsTimes100ToFixed1 completionRate ++ "% completion with " ++ toFixed1 avgTimePerQuestion ++ "s avg responses. While technical setup appears functional, content quality, communication skills, and confidence need substantial improvement. Focus on STAR method, industry knowledge, and structured responses."
  else if overallScore < 65 then
    "AVERAGE PERFORMANCE (" ++ toString overallScore ++ "%): Demonstrates adequate interview skills with " ++ jsTimes100ToFixed1 completionRate ++ "% completion and " ++ toFixed1 avgTimePerQuestion ++ "s response times. Shows basic professional communication and role understanding. To excel: add specific quantifiable examples, demonstrate deeper technical expertise, improve response structure, and show greater enthusiasm for the role."
  else if overallScore < 80 then
    "GOOD PERFORMANCE (" ++ toString overallScore ++ "%): Strong interview showing with " ++ jsTimes100ToFixed1 completionRate ++ "% completion rate and " ++ toFixed1 avgTimePerQuestion ++ "s thoughtful responses. Demonstrates professional communication, role competency, and good interview presence. Minor improvements: more specific metrics in examples, stronger technical depth, and enhanced storytelling to differentiate from other candidates."
  else
    "EXCELLENT PERFORMANCE (" ++ toString overallScore ++ "%): Outstanding interview demonstration with " ++ jsTimes100ToFixed1 completionRate ++ "% completion and " ++ toFixed1 avgTimePerQuestion ++ "s well-structured responses. Shows exceptional professional presence, clear communication, strong role expertise, and interview confidence. Performance indicates strong candidacy for " ++ selectedRole ++ " positions. Continue leveraging these strengths in real interviews."

/-- `analyzeInterviewPerformance` (source lines 278-561). -/
def analyzeInterviewPerformance (interviewData : InterviewInput) : InterviewAnalysis :=
  let questionsAnswered := interviewData.questionsAnswered
  let totalQuestions := interviewData.totalQuestions
  let timeSpentPerQuestion := interviewData.timeSpentPerQuestion
  let cameraUsed := interviewData.cameraUsed
  let microphoneUsed := interviewData.microphoneUsed
  let interviewCompleted := interviewData.interviewCompleted
  let responses := interviewData.responses
  let cr := completionRate questionsAnswered totalQuestions
  let avgTime := avgTimePerQuestion timeSpentPerQuestion
  let responseAnalysis := analyzeResponseContent responses interviewData.selectedRole
  let bodyR := bodyLanguageBlock cameraUsed questionsAnswered cr timeSpentPerQuestion responseAnalysis
  let grammarR := grammarBlock microphoneUsed questionsAnswered cr avgTime responses responseAnalysis
  let skillsR := skillsBlock questionsAnswered cr avgTime responses interviewData.selectedRole responseAnalysis
  let confidenceR :=
    confidenceBlock cameraUsed microphoneUsed questionsAnswered cr avgTime interviewCompleted responseAnalysis
  let overallScore := jsRound ((bodyR.score + grammarR.score + skillsR.score + confidenceR.score) / 4)
  { overallScore := overallScore
    bodyLanguageScore := bodyR.score
    grammarScore := grammarR.score
    skillsScore := skillsR.score
    confidenceScore := confidenceR.score
    feedback := interviewFeedback overallScore cr avgTime cameraUsed microphoneUsed interviewData.selectedRole
    strengths := bodyR.strengths ++ grammarR.strengths ++ skillsR.strengths ++ confidenceR.strengths
    improvements := bodyR.improvements ++ grammarR.improvements ++ skillsR.improvements ++ confidenceR.improvements }

/- ### Helper lemmas -/

theorem analyze_body_eq (i : InterviewInput) :
    (analyzeInterviewPerformance i).bodyLanguageScore =
      (bodyLanguageBlock i.cameraUsed i.questionsAnswered
        (completionRate i.questionsAnswered i.totalQuestions) i.timeSpentPerQuestion
        (analyzeResponseContent i.responses i.selectedRole)).score := rfl

theorem analyze_grammar_eq (i : InterviewInput) :
    (analyzeInterviewPerformance i).grammarScore =
      (grammarBlock i.microphoneUsed i.questionsAnswered
        (completionRate i.questionsAnswered i.totalQuestions)
        (avgTimePerQuestion i.timeSpentPerQuestion) i.responses
        (analyzeResponseContent i.responses i.selectedRole)).score := rfl

theorem analyze_skills_eq (i : InterviewInput) :
    (analyzeInterviewPerformance i).skillsScore =
      (skillsBlock i.questionsAnswered
        (completionRate i.questionsAnswered i.totalQuestions)
        (avgTimePerQuestion i.timeSpentPerQuestion) i.responses i.selectedRole
        (analyzeResponseContent i.responses i.selectedRole)).score := rfl

theorem analyze_confidence_eq (i : InterviewInput) :
    (analyzeInterviewPerformance i).confidenceScore =
      (confidenceBlock i.cameraUsed i.microphoneUsed i.questionsAnswered
        (completionRate i.questionsAnswered i.totalQuestions)
        (avgTimePerQuestion i.timeSpentPerQuestion) i.interviewCompleted
        (analyzeResponseContent i.responses i.selectedRole)).score := rfl

theorem analyze_overall_eq (i : InterviewInput) :
    (analyzeInterviewPerformance i).overallScore =
      jsRound (((analyzeInterviewPerformance i).bodyLanguageScore +
        (analyzeInterviewPerformance i).grammarScore +
        (analyzeInterviewPerformance i).skillsScore +
        (analyzeInterviewPerformance i).confidenceScore) / 4) := rfl

theorem analyzeResponseContent_nil (role : String) :
    analyzeResponseContent [] role =
      { qualityScore := 0, communicationScore := 0, skillsRelevance := 0, clarity := 0, confidence := 0 } := rfl

theorem bodyTimingAdjust_zero (qa : ℕ) (times : List ℚ) :
    (bodyTimingAdjust 0 qa times).1 = 0 := by
  unfold bodyTimingAdjust
  dsimp only
  split_ifs <;> norm_num [max_def]

theorem bodyQualityBonus_low {ra : ResponseAnalysis} (b : ℚ) (h : ra.qualityScore = 0) :
    (bodyQualityBonus b ra).1 = b := by
  unfold bodyQualityBonus
  rw [h]
  norm_num

theorem bodyCompletionBand_qa_zero (cr : JSRat) : (bodyCompletionBand 0 cr).score = 0 := rfl

theorem bodyLanguageBlock_zero (cam : Bool) (cr : JSRat) (times : List ℚ)
    {ra : ResponseAnalysis} (hq : ra.qualityScore = 0) :
    (bodyLanguageBlock cam 0 cr times ra).score = 0 := by
  cases cam with
  | false => rfl
  | true =>
    simp only [bodyLanguageBlock, Bool.not_true, Bool.false_eq_true, if_false]
    rw [bodyCompletionBand_qa_zero, bodyTimingAdjust_zero, bodyQualityBonus_low _ hq]

theorem grammarIssuesAdjust_from_zero (issues : GrammarIssues) (n : ℕ) :
    (grammarIssuesAdjust 0 issues n).1 = 0 := by
  unfold grammarIssuesAdjust
  dsimp only
  split_ifs <;> norm_num [max_def]

theorem grammarTimeAdjust_from_zero (avg : ℚ) : (grammarTimeAdjust 0 avg).1 = 0 := by
  unfold grammarTimeAdjust
  split_ifs <;> norm_num [max_def]

theorem grammarCompletionAdjust_from_zero (cr : JSRat) : (grammarCompletionAdjust 0 cr).1 = 0 := by
  unfold grammarCompletionAdjust
  split_ifs <;> norm_num [max_def]

theorem grammarBlock_zero (mic : Bool) (qa : ℕ) (cr : JSRat) (avg : ℚ) (responses : List String)
    {ra : ResponseAnalysis} (hc : ra.communicationScore = 0) :
    (grammarBlock mic qa cr avg responses ra).score = 0 := by
  cases mic with
  | false => rfl
  | true =>
    by_cases hqa : qa = 0
    · simp only [grammarBlock, Bool.not_true, Bool.false_eq_true, if_false, if_pos hqa]
    · simp only [grammarBlock, Bool.not_true, Bool.false_eq_true, if_false, if_neg hqa, hc]
      have hbase : ((⌊(0 : ℚ) * 10⌋ : ℤ) : ℚ) = 0 := by norm_num
      rw [hbase, grammarIssuesAdjust_from_zero, grammarTimeAdjust_from_zero,
        grammarCompletionAdjust_from_zero]

theorem skillsDemoAdjust_from_zero (sd : SkillsDemonstration) : (skillsDemoAdjust 0 sd).1 = 0 := by
  unfold skillsDemoAdjust
  dsimp only
  split_ifs <;> norm_num [max_def]

theorem skillsCompletionAdjust_from_zero (cr : JSRat) : (skillsCompletionAdjust 0 cr).1 = 0 := by
  unfold skillsCompletionAdjust
  split_ifs <;> norm_num [max_def]

theorem skillsTimeAdjust_from_zero (avg : ℚ) : (skillsTimeAdjust 0 avg).1 = 0 := by
  unfold skillsTimeAdjust
  split_ifs <;> norm_num [max_def]

theorem skillsBlock_zero (qa : ℕ) (cr : JSRat) (avg : ℚ) (responses : List String) (role : String)
    {ra : ResponseAnalysis} (hs : ra.skillsRelevance = 0) :
    (skillsBlock qa cr avg responses role ra).score = 0 := by
  by_cases hqa : qa = 0
  · simp only [skillsBlock, if_pos hqa]
  · simp only [skillsBlock, if_neg hqa, hs]
    have hbase : ((⌊(0 : ℚ) * 10⌋ : ℤ) : ℚ) = 0 := by norm_num
    rw [hbase, skillsDemoAdjust_from_zero, skillsCompletionAdjust_from_zero,
      skillsTimeAdjust_from_zero]

theorem confidenceBlock_qa_zero (cam mic : Bool) (cr : JSRat) (avg : ℚ) (comp : Bool)
    (ra : ResponseAnalysis) :
    (confidenceBlock cam mic 0 cr avg comp ra).score = 0 := by
  unfold confidenceBlock
  split_ifs with h1 h2
  · rfl
  · rfl
  · exact absurd rfl h2

/-- All five response-profile metrics lie in [0, 10]. -/
def RABounds (ra : ResponseAnalysis) : Prop :=
  (0 ≤ ra.qualityScore ∧ ra.qualityScore ≤ 10) ∧
  (0 ≤ ra.communicationScore ∧ ra.communicationScore ≤ 10) ∧
  (0 ≤ ra.skillsRelevance ∧ ra.skillsRelevance ≤ 10) ∧
  (0 ≤ ra.clarity ∧ ra.clarity ≤ 10) ∧
  (0 ≤ ra.confidence ∧ ra.confidence ≤ 10)

theorem responseStep_quality_bounds (kws : List String) (st : ResponseAnalysis) (r : String)
    (h0 : 0 ≤ st.qualityScore) (h1 : st.qualityScore ≤ 10) :
    0 ≤ (responseStep kws st r).qualityScore ∧ (responseStep kws st r).qualityScore ≤ 10 := by
  unfold responseStep
  dsimp only
  split_ifs <;> constructor
  exacts [le_min (add_nonneg (le_max_right _ _) (by norm_num)) (by norm_num),
    min_le_right _ _,
    le_min (add_nonneg (le_min (by linarith) (by norm_num)) (by norm_num)) (by norm_num),
    min_le_right _ _,
    le_min (by linarith) (by norm_num),
    min_le_right _ _,
    le_max_right _ _,
    max_le (by linarith) (by norm_num),
    le_min (by linarith) (by norm_num),
    min_le_right _ _,
    h0, h1]

theorem responseStep_comm_bounds (kws : List String) (st : ResponseAnalysis) (r : String)
    (h0 : 0 ≤ st.communicationScore) (h1 : st.communicationScore ≤ 10) :
    0 ≤ (responseStep kws st r).communicationScore ∧
      (responseStep kws st r).communicationScore ≤ 10 := by
  unfold responseStep
  dsimp only
  split_ifs <;> constructor
  exacts [le_min (by linarith) (by norm_num), min_le_right _ _, h0, h1]

theorem responseStep_skills_bounds (kws : List String) (st : ResponseAnalysis) (r : String)
    (h0 : 0 ≤ st.skillsRelevance) (h1 : st.skillsRelevance ≤ 10) :
    0 ≤ (responseStep kws st r).skillsRelevance ∧ (responseStep kws st r).skillsRelevance ≤ 10 := by
  unfold responseStep
  dsimp only
  split_ifs <;> constructor
  exacts [le_min (add_nonneg (le_min (by linarith) (by norm_num)) (by positivity)) (by norm_num),
    min_le_right _ _,
    le_min (add_nonneg h0 (by positivity)) (by norm_num),
    min_le_right _ _,
    le_min (by linarith) (by norm_num),
    min_le_right _ _,
    h0, h1]

theorem responseStep_clarity_bounds (kws : List String) (st : ResponseAnalysis) (r : String)
    (h0 : 0 ≤ st.clarity) (h1 : st.clarity ≤ 10) :
    0 ≤ (responseStep kws st r).clarity ∧ (responseStep kws st r).clarity ≤ 10 := by
  unfold responseStep
  dsimp only
  split_ifs <;> constructor
  exacts [le_min (by linarith) (by norm_num), min_le_right _ _, h0, h1]

theorem responseStep_confidence_bounds (kws : List String) (st : ResponseAnalysis) (r : String)
    (h0 : 0 ≤ st.confidence) (h1 : st.confidence ≤ 10) :
    0 ≤ (responseStep kws st r).confidence ∧ (responseStep kws st r).confidence ≤ 10 := by
  unfold responseStep
  dsimp only
  split_ifs <;> constructor
  exacts [le_min (by linarith) (by norm_num), min_le_right _ _, h0, h1]

theorem responseStep_bounds (kws : List String) (st : ResponseAnalysis) (r : String)
    (h : RABounds st) : RABounds (responseStep kws st r) := by
  obtain ⟨⟨q0, q1⟩, ⟨c0, c1⟩, ⟨s0, s1⟩, ⟨l0, l1⟩, ⟨f0, f1⟩⟩ := h
  exact ⟨responseStep_quality_bounds kws st r q0 q1,
    responseStep_comm_bounds kws st r c0 c1,
    responseStep_skills_bounds kws st r s0 s1,
    responseStep_clarity_bounds kws st r l0 l1,
    responseStep_confidence_bounds kws st r f0 f1⟩

theorem foldl_responseStep_bounds (kws : List String) (l : List String)
    (st : ResponseAnalysis) (h : RABounds st) :
    RABounds (l.foldl (responseStep kws) st) := by
  induction l generalizing st with
  | nil => exact h
  | cons a t ih => exact ih _ (responseStep_bounds kws st a h)

theorem round1_bounds {x : ℚ} (h0 : 0 ≤ x) (h1 : x ≤ 10) :
    0 ≤ round1 x ∧ round1 x ≤ 10 := by
  unfold round1 jsRound
  have hlo : (0 : ℤ) ≤ ⌊x * 10 + 0.5⌋ := Int.le_floor.2 (by push_cast; linarith)
  have hub : (⌊x * 10 + 0.5⌋ : ℚ) ≤ x * 10 + 0.5 := Int.floor_le _
  have hhi : ⌊x * 10 + 0.5⌋ ≤ 100 := by
    have h2 : ((⌊x * 10 + 0.5⌋ : ℤ) : ℚ) < 101 := by linarith
    have h3 : (⌊x * 10 + 0.5⌋ : ℤ) < 101 := by exact_mod_cast h2
    omega
  constructor
  · have h4 : ((0 : ℤ) : ℚ) ≤ (⌊x * 10 + 0.5⌋ : ℚ) := by exact_mod_cast hlo
    have h5 : (0 : ℚ) ≤ (⌊x * 10 + 0.5⌋ : ℚ) := by exact_mod_cast h4
    linarith
  · have h6 : ((⌊x * 10 + 0.5⌋ : ℤ) : ℚ) ≤ 100 := by exact_mod_cast hhi
    linarith

theorem analyzeResponseContent_bounds (responses : List String) (role : String) :
    RABounds (analyzeResponseContent responses role) := by
  unfold analyzeResponseContent
  split_ifs with h
  · refine ⟨⟨?_, ?_⟩, ⟨?_, ?_⟩, ⟨?_, ?_⟩, ⟨?_, ?_⟩, ⟨?_, ?_⟩⟩ <;> norm_num
  · have hinit : RABounds
        { qualityScore := 5, communicationScore := 5, skillsRelevance := 5, clarity := 5, confidence := 5 } := by
      refine ⟨⟨?_, ?_⟩, ⟨?_, ?_⟩, ⟨?_, ?_⟩, ⟨?_, ?_⟩, ⟨?_, ?_⟩⟩ <;> norm_num
    have hfold := foldl_responseStep_bounds (getRoleKeywords role) responses _ hinit
    obtain ⟨⟨q0, q1⟩, ⟨c0, c1⟩, ⟨s0, s1⟩, ⟨l0, l1⟩, ⟨f0, f1⟩⟩ := hfold
    exact ⟨round1_bounds q0 q1, round1_bounds c0 c1, round1_bounds s0 s1,
      round1_bounds l0 l1, round1_bounds f0 f1⟩

theorem floor_scale_bounds {x : ℚ} (h0 : 0 ≤ x) (h1 : x ≤ 10) :
    (0 : ℚ) ≤ ((⌊x * 10⌋ : ℤ) : ℚ) ∧ ((⌊x * 10⌋ : ℤ) : ℚ) ≤ 100 := by
  have hlo : (0 : ℤ) ≤ ⌊x * 10⌋ := Int.le_floor.2 (by push_cast; linarith)
  have hub : (⌊x * 10⌋ : ℚ) ≤ x * 10 := Int.floor_le _
  constructor
  · exact_mod_cast hlo
  · linarith

theorem max_sub_le (k : ℚ) {g c : ℚ} (h : g ≤ c) (hc : 0 ≤ c) (hk : 0 ≤ k) :
    max (g - k) 0 ≤ c := max_le (by linarith) hc

theorem max_mul_le (f : ℚ) {g c : ℚ} (h0 : 0 ≤ g) (h : g ≤ c) (_hf0 : 0 ≤ f) (hf1 : f ≤ 1)
    (hc : 0 ≤ c) : max (g * f) 0 ≤ c := max_le (by nlinarith) hc

theorem bodyCompletionBand_bounds (qa : ℕ) (cr : JSRat) :
    0 ≤ (bodyCompletionBand qa cr).score ∧ (bodyCompletionBand qa cr).score ≤ 60 := by
  unfold bodyCompletionBand
  split_ifs <;> constructor <;> norm_num

theorem bodyTimingAdjust_bounds {b : ℚ} (h0 : 0 ≤ b) (h1 : b ≤ 100) (qa : ℕ) (times : List ℚ) :
    0 ≤ (bodyTimingAdjust b qa times).1 ∧ (bodyTimingAdjust b qa times).1 ≤ 100 := by
  unfold bodyTimingAdjust
  dsimp only
  split_ifs <;> constructor <;>
    first
      | exact h0
      | exact h1
      | exact le_max_right _ _
      | exact max_sub_le _ h1 (by norm_num) (by norm_num)

theorem bodyQualityBonus_bounds (ra : ResponseAnalysis) {b : ℚ} (h0 : 0 ≤ b) (h1 : b ≤ 100) :
    0 ≤ (bodyQualityBonus b ra).1 ∧ (bodyQualityBonus b ra).1 ≤ 100 := by
  unfold bodyQualityBonus
  split_ifs <;> constructor <;>
    first
      | exact h0
      | exact h1
      | exact le_min (by linarith) (by norm_num)
      | exact min_le_right _ _
      | exact le_trans (min_le_right _ _) (by norm_num)

theorem bodyLanguageBlock_bounds (cam : Bool) (qa : ℕ) (cr : JSRat) (times : List ℚ)
    (ra : ResponseAnalysis) :
    0 ≤ (bodyLanguageBlock cam qa cr times ra).score ∧
      (bodyLanguageBlock cam qa cr times ra).score ≤ 100 := by
  cases cam with
  | false => exact ⟨le_refl 0, show (0 : ℚ) ≤ 100 by norm_num⟩
  | true =>
    have hband := bodyCompletionBand_bounds qa cr
    have ht := bodyTimingAdjust_bounds hband.1 (le_trans hband.2 (by norm_num)) qa times
    exact bodyQualityBonus_bounds ra ht.1 ht.2

theorem grammarIssuesAdjust_bounds (issues : GrammarIssues) (n : ℕ) {g : ℚ}
    (h0 : 0 ≤ g) (h1 : g ≤ 100) :
    0 ≤ (grammarIssuesAdjust g issues n).1 ∧ (grammarIssuesAdjust g issues n).1 ≤ 100 := by
  unfold grammarIssuesAdjust
  dsimp only
  split_ifs <;> constructor <;>
    first
      | exact h0
      | exact h1
      | exact le_max_right _ _
      | exact max_sub_le _ h1 (by norm_num) (by norm_num)
      | exact max_sub_le _ (max_sub_le _ h1 (by norm_num) (by norm_num)) (by norm_num) (by norm_num)
      | exact max_sub_le _ (max_sub_le _ (max_sub_le _ h1 (by norm_num) (by norm_num)) (by norm_num) (by norm_num)) (by norm_num) (by norm_num)

theorem grammarTimeAdjust_bounds (avg : ℚ) {g : ℚ} (h0 : 0 ≤ g) (h1 : g ≤ 100) :
    0 ≤ (grammarTimeAdjust g avg).1 ∧ (grammarTimeAdjust g avg).1 ≤ 100 := by
  unfold grammarTimeAdjust
  split_ifs <;> constructor <;>
    first
      | exact h0
      | exact h1
      | exact le_max_right _ _
      | exact max_sub_le _ h1 (by norm_num) (by norm_num)

theorem grammarCompletionAdjust_bounds (cr : JSRat) {g : ℚ} (h0 : 0 ≤ g) (h1 : g ≤ 100) :
    0 ≤ (grammarCompletionAdjust g cr).1 ∧ (grammarCompletionAdjust g cr).1 ≤ 100 := by
  unfold grammarCompletionAdjust
  split_ifs <;> constructor <;>
    first
      | exact h0
      | exact h1
      | exact le_max_right _ _
      | exact max_mul_le _ h0 h1 (by norm_num) (by norm_num) (by norm_num)

theorem grammarBlock_bounds (mic : Bool) (qa : ℕ) (cr : JSRat) (avg : ℚ)
    (responses : List String) (ra : ResponseAnalysis)
    (hc0 : 0 ≤ ra.communicationScore) (hc1 : ra.communicationScore ≤ 10) :
    0 ≤ (grammarBlock mic qa cr avg responses ra).score ∧
      (grammarBlock mic qa cr avg responses ra).score ≤ 100 := by
  cases mic with
  | false => exact ⟨le_refl 0, show (0 : ℚ) ≤ 100 by norm_num⟩
  | true =>
    by_cases hqa : qa = 0
    · subst hqa
      simp only [grammarBlock, Bool.not_true, Bool.false_eq_true, if_false, if_pos rfl]
      exact ⟨le_refl 0, show (0 : ℚ) ≤ 100 by norm_num⟩
    · simp only [grammarBlock, Bool.not_true, Bool.false_eq_true, if_false, if_neg hqa]
      have hbase := floor_scale_bounds hc0 hc1
      have h1 := grammarIssuesAdjust_bounds (analyzeGrammarAndSpeech responses) responses.length
        hbase.1 hbase.2
      have h2 := grammarTimeAdjust_bounds avg h1.1 h1.2
      exact grammarCompletionAdjust_bounds cr h2.1 h2.2

theorem skillsDemoAdjust_bounds (sd : SkillsDemonstration) {s : ℚ} (h0 : 0 ≤ s) (h1 : s ≤ 100) :
    0 ≤ (skillsDemoAdjust s sd).1 ∧ (skillsDemoAdjust s sd).1 ≤ 100 := by
  unfold skillsDemoAdjust
  dsimp only
  split_ifs <;> constructor <;>
    first
      | exact h0
      | exact h1
      | exact le_max_right _ _
      | exact max_sub_le _ h1 (by norm_num) (by norm_num)
      | exact max_sub_le _ (max_sub_le _ h1 (by norm_num) (by norm_num)) (by norm_num) (by norm_num)
      | exact max_sub_le _ (max_sub_le _ (max_sub_le _ h1 (by norm_num) (by norm_num)) (by norm_num) (by norm_num)) (by norm_num) (by norm_num)
      | exact max_sub_le _ (max_sub_le _ (max_sub_le _ (max_sub_le _ h1 (by norm_num) (by norm_num)) (by norm_num) (by norm_num)) (by norm_num) (by norm_num)) (by norm_num) (by norm_num)

theorem skillsCompletionAdjust_bounds (cr : JSRat) {s : ℚ} (h0 : 0 ≤ s) (h1 : s ≤ 100) :
    0 ≤ (skillsCompletionAdjust s cr).1 ∧ (skillsCompletionAdjust s cr).1 ≤ 100 := by
  unfold skillsCompletionAdjust
  split_ifs <;> constructor <;>
    first
      | exact h0
      | exact h1
      | exact le_max_right _ _
      | exact max_mul_le _ h0 h1 (by norm_num) (by norm_num) (by norm_num)

theorem skillsTimeAdjust_bounds (avg : ℚ) {s : ℚ} (h0 : 0 ≤ s) (h1 : s ≤ 100) :
    0 ≤ (skillsTimeAdjust s avg).1 ∧ (skillsTimeAdjust s avg).1 ≤ 100 := by
  unfold skillsTimeAdjust
  split_ifs <;> constructor <;>
    first
      | exact h0
      | exact h1
      | exact le_max_right _ _
      | exact max_sub_le _ h1 (by norm_num) (by norm_num)

theorem skillsBlock_bounds (qa : ℕ) (cr : JSRat) (avg : ℚ) (responses : List String)
    (role : String) (ra : ResponseAnalysis)
    (hs0 : 0 ≤ ra.skillsRelevance) (hs1 : ra.skillsRelevance ≤ 10) :
    0 ≤ (skillsBlock qa cr avg responses role ra).score ∧
      (skillsBlock qa cr avg responses role ra).score ≤ 100 := by
  by_cases hqa : qa = 0
  · subst hqa
    simp only [skillsBlock, if_pos rfl]
    exact ⟨le_refl 0, show (0 : ℚ) ≤ 100 by norm_num⟩
  · simp only [skillsBlock, if_neg hqa]
    have hbase := floor_scale_bounds hs0 hs1
    have h1 := skillsDemoAdjust_bounds (analyzeSkillsDemonstration responses role) hbase.1 hbase.2
    have h2 := skillsCompletionAdjust_bounds cr h1.1 h1.2
    exact skillsTimeAdjust_bounds avg h2.1 h2.2

theorem confidenceCompletionAdjust_bounds (cr : JSRat) {c : ℚ} (h0 : 0 ≤ c) (h1 : c ≤ 100) :
    0 ≤ (confidenceCompletionAdjust c cr).1 ∧ (confidenceCompletionAdjust c cr).1 ≤ 100 := by
  unfold confidenceCompletionAdjust
  split_ifs <;> constructor <;>
    first
      | exact h0
      | exact h1
      | exact le_max_right _ _
      | exact max_mul_le _ h0 h1 (by norm_num) (by norm_num) (by norm_num)

theorem confidenceTimeAdjust_bounds (avg : ℚ) (ra : ResponseAnalysis) {c : ℚ}
    (h0 : 0 ≤ c) (h1 : c ≤ 100) :
    0 ≤ (confidenceTimeAdjust c avg ra).1 ∧ (confidenceTimeAdjust c avg ra).1 ≤ 100 := by
  unfold confidenceTimeAdjust
  split_ifs <;> constructor
  exacts [le_max_right _ _, max_sub_le _ h1 (by norm_num) (by norm_num),
    le_max_right _ _, max_sub_le _ h1 (by norm_num) (by norm_num),
    le_min (by linarith) (by norm_num), min_le_right _ _, h0, h1]

theorem confidenceCompletionBonus_bounds (comp : Bool) (cr : JSRat) {c : ℚ}
    (h0 : 0 ≤ c) (h1 : c ≤ 100) :
    0 ≤ (confidenceCompletionBonus c comp cr).1 ∧ (confidenceCompletionBonus c comp cr).1 ≤ 100 := by
  unfold confidenceCompletionBonus
  split_ifs <;> constructor <;>
    first
      | exact h0
      | exact h1
      | exact le_min (by linarith) (by norm_num)
      | exact min_le_right _ _

theorem confidenceBlock_bounds (cam mic : Bool) (qa : ℕ) (cr : JSRat) (avg : ℚ) (comp : Bool)
    (ra : ResponseAnalysis) (hf0 : 0 ≤ ra.confidence) (hf1 : ra.confidence ≤ 10) :
    0 ≤ (confidenceBlock cam mic qa cr avg comp ra).score ∧
      (confidenceBlock cam mic qa cr avg comp ra).score ≤ 100 := by
  unfold confidenceBlock
  split_ifs
  · exact ⟨le_refl 0, show (0 : ℚ) ≤ 100 by norm_num⟩
  · exact ⟨le_refl 0, show (0 : ℚ) ≤ 100 by norm_num⟩
  · have hbase := floor_scale_bounds hf0 hf1
    have h1 := confidenceCompletionAdjust_bounds cr hbase.1 hbase.2
    have h2 := confidenceTimeAdjust_bounds avg ra h1.1 h1.2
    exact confidenceCompletionBonus_bounds comp cr h2.1 h2.2

theorem jsRound_mean4_bounds {a b c d : ℚ} (ha0 : 0 ≤ a) (ha1 : a ≤ 100) (hb0 : 0 ≤ b)
    (hb1 : b ≤ 100) (hc0 : 0 ≤ c) (hc1 : c ≤ 100) (hd0 : 0 ≤ d) (hd1 : d ≤ 100) :
    0 ≤ jsRound ((a + b + c + d) / 4) ∧ jsRound ((a + b + c + d) / 4) ≤ 100 := by
  unfold jsRound
  constructor
  · exact Int.le_floor.2 (by push_cast; linarith)
  · have hub : (⌊(a + b + c + d) / 4 + 0.5⌋ : ℚ) ≤ (a + b + c + d) / 4 + 0.5 := Int.floor_le _
    have h2 : ((⌊(a + b + c + d) / 4 + 0.5⌋ : ℤ) : ℚ) < 101 := by linarith
    have h3 : (⌊(a + b + c + d) / 4 + 0.5⌋ : ℤ) < 101 := by exact_mod_cast h2
    omega

theorem analyzeResume_atsScore_le (file : Option RFile) (role text : String) :
    (analyzeResume file role text).atsScore ≤ 100 := by
  cases file with
  | none => exact Nat.zero_le 100
  | some f =>
    simp only [analyzeResume]
    by_cases h1 : fileExtensionOf f.name ∉ ([".pdf", ".doc", ".docx"] : List String)
    · rw [if_pos h1]
      exact Nat.zero_le 100
    · rw [if_neg h1]
      by_cases h2 : f.size > 2000000
      · rw [if_pos h2]
        norm_num
      · rw [if_neg h2]
        dsimp only
        exact le_trans (min_le_right _ _) (by norm_num)

theorem bodyCompletionBand_mono {x y : ℚ} (hxy : x ≤ y) {qa1 qa2 : ℕ} (hqa : qa1 ≤ qa2) :
    (bodyCompletionBand qa1 (JSRat.val x)).score ≤ (bodyCompletionBand qa2 (JSRat.val y)).score := by
  by_cases h1 : qa1 = 0
  · rw [h1, bodyCompletionBand_qa_zero]
    exact (bodyCompletionBand_bounds qa2 (JSRat.val y)).1
  · have h2 : qa2 ≠ 0 := by omega
    unfold bodyCompletionBand
    rw [if_neg h1, if_neg h2]
    simp only [jlt, decide_eq_true_eq]
    split_ifs <;> dsimp only <;> linarith

theorem grammarCompletionAdjust_mono {g : ℚ} (hg : 0 ≤ g) {x y : ℚ} (hxy : x ≤ y) :
    (grammarCompletionAdjust g (JSRat.val x)).1 ≤ (grammarCompletionAdjust g (JSRat.val y)).1 := by
  unfold grammarCompletionAdjust
  simp only [jlt, decide_eq_true_eq]
  split_ifs <;> dsimp only <;>
    first
      | exact le_refl _
      | linarith
      | exact max_le_max (by nlinarith) (le_refl 0)
      | exact max_le (by nlinarith) hg

theorem skillsCompletionAdjust_mono {s : ℚ} (hs : 0 ≤ s) {x y : ℚ} (hxy : x ≤ y) :
    (skillsCompletionAdjust s (JSRat.val x)).1 ≤ (skillsCompletionAdjust s (JSRat.val y)).1 := by
  unfold skillsCompletionAdjust
  simp only [jlt, decide_eq_true_eq]
  split_ifs <;> dsimp only <;>
    first
      | exact le_refl _
      | linarith
      | exact max_le_max (by nlinarith) (le_refl 0)
      | exact max_le (by nlinarith) hs

theorem confidenceCompletionAdjust_mono {c : ℚ} (hc : 0 ≤ c) {x y : ℚ} (hxy : x ≤ y) :
    (confidenceCompletionAdjust c (JSRat.val x)).1 ≤ (confidenceCompletionAdjust c (JSRat.val y)).1 := by
  unfold confidenceCompletionAdjust
  simp only [jlt, decide_eq_true_eq]
  split_ifs <;> dsimp only <;>
    first
      | exact le_refl _
      | linarith
      | exact max_le_max (by nlinarith) (le_refl 0)
      | exact max_le (by nlinarith) hc

theorem completionRate_pos_eq {qa tq : ℕ} (htq : tq ≠ 0) :
    completionRate qa tq = JSRat.val ((qa : ℚ) / (tq : ℚ)) := by
  unfold completionRate jsDiv
  rw [if_neg (by exact_mod_cast htq)]

/- ### Concrete sessions used by witnesses and counterexamples -/

/-- The spec scenario of claim C8: full completion, 35 s per question, both
devices on, no response texts supplied. -/
def c8Session : InterviewInput :=
  { questionsAnswered := 7, totalQuestions := 7,
    timeSpentPerQuestion := [35, 35, 35, 35, 35, 35, 35],
    cameraUsed := true, microphoneUsed := true, interviewCompleted := true,
    selectedRole := "Software Engineer", interviewDuration := 245, responses := [] }

/-- A session whose grammar score comes out fractional: base 55 (one
three-sentence response) scaled by the 0.3 completion multiplier. -/
def c2Session : InterviewInput :=
  { questionsAnswered := 3, totalQuestions := 7, timeSpentPerQuestion := [35, 35, 35],
    cameraUsed := true, microphoneUsed := true, interviewCompleted := false,
    selectedRole := "X", interviewDuration := 105, responses := ["ab cd. ef gh. ij kl."] }

/-- A session with `totalQuestions = 0` but answered questions: the unguarded
division yields +Infinity, which lands in the top completion band. -/
def c6Session : InterviewInput :=
  { questionsAnswered := 5, totalQuestions := 0, timeSpentPerQuestion := [],
    cameraUsed := true, microphoneUsed := true, interviewCompleted := false,
    selectedRole := "Software Engineer", interviewDuration := 0, responses := [] }

/-- A session with `totalQuestions = 0` and no engagement at all. -/
def c6GuardSession : InterviewInput :=
  { questionsAnswered := 0, totalQuestions := 0, timeSpentPerQuestion := [],
    cameraUsed := true, microphoneUsed := true, interviewCompleted := false,
    selectedRole := "Software Engineer", interviewDuration := 0, responses := [] }

/-- A session with both devices disabled. -/
def c3Session : InterviewInput :=
  { questionsAnswered := 3, totalQuestions := 7, timeSpentPerQuestion := [20, 20, 20],
    cameraUsed := false, microphoneUsed := false, interviewCompleted := false,
    selectedRole := "Software Engineer", interviewDuration := 60, responses := [] }

/-- A zero-engagement session with devices enabled and stray timing entries. -/
def c4Session : InterviewInput :=
  { questionsAnswered := 0, totalQuestions := 7, timeSpentPerQuestion := [3, 2],
    cameraUsed := true, microphoneUsed := true, interviewCompleted := false,
    selectedRole := "Data Scientist", interviewDuration := 30, responses := [] }

/-- A partially answered session with the microphone on and no response texts. -/
def c10Session : InterviewInput :=
  { questionsAnswered := 3, totalQuestions := 7, timeSpentPerQuestion := [40, 40, 40],
    cameraUsed := true, microphoneUsed := true, interviewCompleted := false,
    selectedRole := "Software Engineer", interviewDuration := 120, responses := [] }

/-- A keyword-rich extracted text used to score the non-format axes. -/
def c7Text : String :=
  "software development programming code javascript python react node git api database frontend experience education skills contact me@x.com 555-123-4567"

/- ### The claims -/

/-- Claim C1: for every interview session input, the overallScore returned by
analyzeInterviewPerformance equals round((bodyLanguageScore + grammarScore +
skillsScore + confidenceScore) / 4), the rounded mean of the four sub-scores
returned in the same analysis. -/
theorem c1_overall_is_rounded_mean (i : InterviewInput) :
    (analyzeInterviewPerformance i).overallScore =
      jsRound (((analyzeInterviewPerformance i).bodyLanguageScore +
        (analyzeInterviewPerformance i).grammarScore +
        (analyzeInterviewPerformance i).skillsScore +
        (analyzeInterviewPerformance i).confidenceScore) / 4) := rfl

/-- Claim C2 counterexample: the grammar sub-score need not be an integer.
At `c2Session` the base 55 is scaled by the 0.3 completion multiplier to
16.5, so no integer equals the returned grammarScore. -/
theorem c2_noninteger_grammar_counterexample :
    ¬ ∃ n : ℤ, (analyzeInterviewPerformance c2Session).grammarScore = (n : ℚ) := by
  intro hex
  obtain ⟨n, hn⟩ := hex
  have h : (analyzeInterviewPerformance c2Session).grammarScore = 33 / 2 := by
    with_unfolding_all rfl
  rw [h] at hn
  have h2 : (33 : ℚ) = 2 * (n : ℚ) := by rw [← hn]; ring
  have h3 : (33 : ℤ) = 2 * n := by exact_mod_cast h2
  omega

/-- Claim C2 (amended): for every valid input, analyzeResume returns atsScore
with 0 ≤ atsScore ≤ 100, and analyzeInterviewPerformance returns
bodyLanguageScore, grammarScore, skillsScore and confidenceScore each a
number in [0, 100] and overallScore an integer in [0, 100] (the grammar,
skills and confidence sub-scores may be fractional). -/
theorem c2_scores_within_bounds :
    (∀ (file : Option RFile) (role text : String),
      0 ≤ (analyzeResume file role text).atsScore ∧
        (analyzeResume file role text).atsScore ≤ 100) ∧
    (∀ i : InterviewInput,
      (0 ≤ (analyzeInterviewPerformance i).bodyLanguageScore ∧
        (analyzeInterviewPerformance i).bodyLanguageScore ≤ 100) ∧
      (0 ≤ (analyzeInterviewPerformance i).grammarScore ∧
        (analyzeInterviewPerformance i).grammarScore ≤ 100) ∧
      (0 ≤ (analyzeInterviewPerformance i).skillsScore ∧
        (analyzeInterviewPerformance i).skillsScore ≤ 100) ∧
      (0 ≤ (analyzeInterviewPerformance i).confidenceScore ∧
        (analyzeInterviewPerformance i).confidenceScore ≤ 100) ∧
      (0 ≤ (analyzeInterviewPerformance i).overallScore ∧
        (analyzeInterviewPerformance i).overallScore ≤ 100)) := by
  constructor
  · intro file role text
    exact ⟨Nat.zero_le _, analyzeResume_atsScore_le file role text⟩
  · intro i
    obtain ⟨⟨q0, q1⟩, ⟨c0, c1⟩, ⟨s0, s1⟩, ⟨l0, l1⟩, ⟨f0, f1⟩⟩ :=
      analyzeResponseContent_bounds i.responses i.selectedRole
    have hb := bodyLanguageBlock_bounds i.cameraUsed i.questionsAnswered
      (completionRate i.questionsAnswered i.totalQuestions) i.timeSpentPerQuestion
      (analyzeResponseContent i.responses i.selectedRole)
    have hg := grammarBlock_bounds i.microphoneUsed i.questionsAnswered
      (completionRate i.questionsAnswered i.totalQuestions)
      (avgTimePerQuestion i.timeSpentPerQuestion) i.responses
      (analyzeResponseContent i.responses i.selectedRole) c0 c1
    have hs := skillsBlock_bounds i.questionsAnswered
      (completionRate i.questionsAnswered i.totalQuestions)
      (avgTimePerQuestion i.timeSpentPerQuestion) i.responses i.selectedRole
      (analyzeResponseContent i.responses i.selectedRole) s0 s1
    have hc := confidenceBlock_bounds i.cameraUsed i.microphoneUsed i.questionsAnswered
      (completionRate i.questionsAnswered i.totalQuestions)
      (avgTimePerQuestion i.timeSpentPerQuestion) i.interviewCompleted
      (analyzeResponseContent i.responses i.selectedRole) f0 f1
    have ho := jsRound_mean4_bounds hb.1 hb.2 hg.1 hg.2 hs.1 hs.2 hc.1 hc.2
    rw [analyze_body_eq, analyze_grammar_eq, analyze_skills_eq, analyze_confidence_eq,
      analyze_overall_eq]
    exact ⟨hb, hg, hs, hc, ho⟩

/-- Claim C3: for every interview session input with cameraUsed = false,
analyzeInterviewPerformance returns bodyLanguageScore = 0; and for every
session with microphoneUsed = false, it returns grammarScore = 0. -/
theorem c3_device_gates (i : InterviewInput) :
    (i.cameraUsed = false → (analyzeInterviewPerformance i).bodyLanguageScore = 0) ∧
    (i.microphoneUsed = false → (analyzeInterviewPerformance i).grammarScore = 0) := by
  constructor
  · intro h
    rw [analyze_body_eq, h]
    rfl
  · intro h
    rw [analyze_grammar_eq, h]
    rfl

/-- Witness for claim C3 at a session with both devices off. -/
theorem c3_device_gates_witness :
    (analyzeInterviewPerformance c3Session).bodyLanguageScore = 0 ∧
    (analyzeInterviewPerformance c3Session).grammarScore = 0 :=
  ⟨(c3_device_gates c3Session).1 rfl, (c3_device_gates c3Session).2 rfl⟩

/-- Claim C4: for every interview session input with questionsAnswered = 0
(and hence no response texts), analyzeInterviewPerformance returns all four
sub-scores 0 and overallScore 0, regardless of device usage, totalQuestions
or timing entries. -/
theorem c4_zero_engagement (i : InterviewInput) (hqa : i.questionsAnswered = 0)
    (hresp : i.responses = []) :
    (analyzeInterviewPerformance i).bodyLanguageScore = 0 ∧
    (analyzeInterviewPerformance i).grammarScore = 0 ∧
    (analyzeInterviewPerformance i).skillsScore = 0 ∧
    (analyzeInterviewPerformance i).confidenceScore = 0 ∧
    (analyzeInterviewPerformance i).overallScore = 0 := by
  have hra : analyzeResponseContent i.responses i.selectedRole =
      { qualityScore := 0, communicationScore := 0, skillsRelevance := 0, clarity := 0,
        confidence := 0 } := by
    rw [hresp]
    exact analyzeResponseContent_nil _
  have hb : (analyzeInterviewPerformance i).bodyLanguageScore = 0 := by
    rw [analyze_body_eq, hqa, hra]
    exact bodyLanguageBlock_zero _ _ _ rfl
  have hg : (analyzeInterviewPerformance i).grammarScore = 0 := by
    rw [analyze_grammar_eq, hra]
    exact grammarBlock_zero _ _ _ _ _ rfl
  have hs : (analyzeInterviewPerformance i).skillsScore = 0 := by
    rw [analyze_skills_eq, hra]
    exact skillsBlock_zero _ _ _ _ _ rfl
  have hc : (analyzeInterviewPerformance i).confidenceScore = 0 := by
    rw [analyze_confidence_eq, hqa]
    exact confidenceBlock_qa_zero _ _ _ _ _ _
  have ho : (analyzeInterviewPerformance i).overallScore = 0 := by
    rw [analyze_overall_eq, hb, hg, hs, hc]
    with_unfolding_all rfl
  exact ⟨hb, hg, hs, hc, ho⟩

/-- Witness for claim C4 at a zero-engagement session with devices on. -/
theorem c4_zero_engagement_witness :
    (analyzeInterviewPerformance c4Session).bodyLanguageScore = 0 ∧
    (analyzeInterviewPerformance c4Session).grammarScore = 0 ∧
    (analyzeInterviewPerformance c4Session).skillsScore = 0 ∧
    (analyzeInterviewPerformance c4Session).confidenceScore = 0 ∧
    (analyzeInterviewPerformance c4Session).overallScore = 0 :=
  c4_zero_engagement c4Session rfl rfl

/-- Claim C5: for a null file input and any selected role, analyzeResume
returns the canonical zero-score result: atsScore 0, empty strengths, and an
improvements list containing the upload prompt. -/
theorem c5_null_resume (selectedRole textContent : String) :
    (analyzeResume none selectedRole textContent).atsScore = 0 ∧
    (analyzeResume none selectedRole textContent).strengths = [] ∧
    "Upload a resume in PDF, DOC, or DOCX format" ∈
      (analyzeResume none selectedRole textContent).improvements :=
  ⟨rfl, rfl, List.mem_cons_self _ _⟩

/-- Claim C6 counterexample: `completionRate` is not taken as 0 when
totalQuestions = 0.  The division yields the +Infinity sentinel; the
completion-banded base at rate 0 would be 2, but the code returns the top
band value 60 for the body-language score. -/
theorem c6_unguarded_division_counterexample :
    completionRate 5 0 = JSRat.inf ∧
    (bodyCompletionBand 5 (JSRat.val 0)).score = 2 ∧
    (analyzeInterviewPerformance c6Session).bodyLanguageScore = 60 := by
  refine ⟨?_, ?_, ?_⟩ <;> with_unfolding_all rfl

/-- Claim C6 (amended): analyzeInterviewPerformance computes completionRate
with no divide-by-zero guard: with totalQuestions = 0 the rate is the
JavaScript sentinel NaN (for questionsAnswered = 0, the only case the data
model allows) rather than 0, every band comparison treats NaN as false, and
the function still returns a fully-populated analysis whose five scores are
all 0 - the same result the guarded computation would give; and if
timeSpentPerQuestion is empty then avgTimePerQuestion is 0. -/
theorem c6_division_sentinels :
    (∀ i : InterviewInput, i.totalQuestions = 0 → i.questionsAnswered = 0 →
      i.responses = [] →
      completionRate i.questionsAnswered i.totalQuestions = JSRat.nan ∧
      (analyzeInterviewPerformance i).bodyLanguageScore = 0 ∧
      (analyzeInterviewPerformance i).grammarScore = 0 ∧
      (analyzeInterviewPerformance i).skillsScore = 0 ∧
      (analyzeInterviewPerformance i).confidenceScore = 0 ∧
      (analyzeInterviewPerformance i).overallScore = 0) ∧
    avgTimePerQuestion [] = 0 := by
  constructor
  · intro i htq hqa hresp
    have hra : analyzeResponseContent i.responses i.selectedRole =
        { qualityScore := 0, communicationScore := 0, skillsRelevance := 0, clarity := 0,
          confidence := 0 } := by
      rw [hresp]
      exact analyzeResponseContent_nil _
    have hb : (analyzeInterviewPerformance i).bodyLanguageScore = 0 := by
      rw [analyze_body_eq, hqa, hra]
      exact bodyLanguageBlock_zero _ _ _ rfl
    have hg : (analyzeInterviewPerformance i).grammarScore = 0 := by
      rw [analyze_grammar_eq, hra]
      exact grammarBlock_zero _ _ _ _ _ rfl
    have hs : (analyzeInterviewPerformance i).skillsScore = 0 := by
      rw [analyze_skills_eq, hra]
      exact skillsBlock_zero _ _ _ _ _ rfl
    have hc : (analyzeInterviewPerformance i).confidenceScore = 0 := by
      rw [analyze_confidence_eq, hqa]
      exact confidenceBlock_qa_zero _ _ _ _ _ _
    have ho : (analyzeInterviewPerformance i).overallScore = 0 := by
      rw [analyze_overall_eq, hb, hg, hs, hc]
      with_unfolding_all rfl
    refine ⟨?_, hb, hg, hs, hc, ho⟩
    rw [hqa, htq]
    with_unfolding_all rfl
  · rfl

/-- Witness for claim C6 at the zero-engagement, zero-question session. -/
theorem c6_division_sentinels_witness :
    (completionRate c6GuardSession.questionsAnswered c6GuardSession.totalQuestions = JSRat.nan ∧
      (analyzeInterviewPerformance c6GuardSession).bodyLanguageScore = 0 ∧
      (analyzeInterviewPerformance c6GuardSession).grammarScore = 0 ∧
      (analyzeInterviewPerformance c6GuardSession).skillsScore = 0 ∧
      (analyzeInterviewPerformance c6GuardSession).confidenceScore = 0 ∧
      (analyzeInterviewPerformance c6GuardSession).overallScore = 0) ∧
    avgTimePerQuestion [] = 0 :=
  ⟨c6_division_sentinels.1 c6GuardSession rfl rfl rfl, c6_division_sentinels.2⟩

/-- Claim C7 counterexample: a non-accepted extension makes analyzeResume
return the constant format-gate record at once - the otherwise identical
high-scoring attributes (size, naming, keywords, sections, contact) are
never scored, while the same attributes with a .pdf extension yield 30. -/
theorem c7_gate_and_stop_counterexample :
    analyzeResume (some { name := "resume.txt", size := 200000 }) "Software Engineer" c7Text =
      { atsScore := 0, feedback := "Resume format incompatible with ATS systems",
        strengths := [],
        improvements := ["CRITICAL: File format rejected by ATS - use PDF, DOC, or DOCX only",
                         "ATS systems auto-reject non-standard formats"] } ∧
    (analyzeResume (some { name := "resume.pdf", size := 200000 }) "Software Engineer" c7Text).atsScore = 30 := by
  constructor <;> with_unfolding_all rfl

/-- Claim C7 (amended): for every non-null file whose extension is not in
{pdf, doc, docx}, analyzeResume returns immediately with the constant
gate-and-stop result: atsScore 0, empty strengths and only the two blocking
format improvements; no other axis is scored. -/
theorem c7_bad_extension_returns_immediately (f : RFile) (role text : String)
    (h : fileExtensionOf f.name ∉ ([".pdf", ".doc", ".docx"] : List String)) :
    analyzeResume (some f) role text =
      { atsScore := 0, feedback := "Resume format incompatible with ATS systems",
        strengths := [],
        improvements := ["CRITICAL: File format rejected by ATS - use PDF, DOC, or DOCX only",
                         "ATS systems auto-reject non-standard formats"] } := by
  simp only [analyzeResume]
  rw [if_pos h]

/-- Witness for claim C7 at a .txt upload. -/
theorem c7_bad_extension_witness :
    fileExtensionOf "my_resume.txt" ∉ ([".pdf", ".doc", ".docx"] : List String) ∧
    analyzeResume (some { name := "my_resume.txt", size := 90000 }) "UX Designer" "" =
      { atsScore := 0, feedback := "Resume format incompatible with ATS systems",
        strengths := [],
        improvements := ["CRITICAL: File format rejected by ATS - use PDF, DOC, or DOCX only",
                         "ATS systems auto-reject non-standard formats"] } :=
  ⟨by with_unfolding_all decide,
    c7_bad_extension_returns_immediately { name := "my_resume.txt", size := 90000 } "UX Designer" ""
      (by with_unfolding_all decide)⟩

/-- Claim C8 counterexample: at the spec scenario (7/7 answered, 35 s each,
devices on, completed, no response texts) the sub-scores are not all ≥ 60:
the grammar score is 0 because its base is the empty response profile. -/
theorem c8_scenario_counterexample :
    ¬ (60 ≤ (analyzeInterviewPerformance c8Session).bodyLanguageScore ∧
       60 ≤ (analyzeInterviewPerformance c8Session).grammarScore ∧
       60 ≤ (analyzeInterviewPerformance c8Session).skillsScore ∧
       60 ≤ (analyzeInterviewPerformance c8Session).confidenceScore ∧
       60 ≤ (analyzeInterviewPerformance c8Session).overallScore) := by
  intro h
  have hg : (analyzeInterviewPerformance c8Session).grammarScore = 0 := by
    with_unfolding_all rfl
  rw [hg] at h
  exact absurd h.2.1 (by norm_num)

/-- Claim C8 (amended): for the session with totalQuestions = 7,
questionsAnswered = 7, all times 35 s, both devices used and
interviewCompleted = true but responses not supplied,
analyzeInterviewPerformance returns bodyLanguageScore 60, grammarScore 0,
skillsScore 0, confidenceScore 15 and overallScore 19. -/
theorem c8_scenario_values :
    (analyzeInterviewPerformance c8Session).bodyLanguageScore = 60 ∧
    (analyzeInterviewPerformance c8Session).grammarScore = 0 ∧
    (analyzeInterviewPerformance c8Session).skillsScore = 0 ∧
    (analyzeInterviewPerformance c8Session).confidenceScore = 15 ∧
    (analyzeInterviewPerformance c8Session).overallScore = 19 := by
  refine ⟨?_, ?_, ?_, ?_, ?_⟩ <;> with_unfolding_all rfl

/-- Claim C9: holding everything else fixed, a larger questionsAnswered
(hence a larger completionRate, same positive totalQuestions) never
decreases the completion-rate-banded base component of any of the four
sub-scores: the body-language band value, and the completion multipliers
applied to the grammar, skills and confidence bases. -/
theorem c9_completion_band_monotone (tq qa1 qa2 : ℕ) (g s c : ℚ)
    (htq : tq ≠ 0) (hqa : qa1 ≤ qa2) (hg : 0 ≤ g) (hs : 0 ≤ s) (hc : 0 ≤ c) :
    (bodyCompletionBand qa1 (completionRate qa1 tq)).score ≤
      (bodyCompletionBand qa2 (completionRate qa2 tq)).score ∧
    (grammarCompletionAdjust g (completionRate qa1 tq)).1 ≤
      (grammarCompletionAdjust g (completionRate qa2 tq)).1 ∧
    (skillsCompletionAdjust s (completionRate qa1 tq)).1 ≤
      (skillsCompletionAdjust s (completionRate qa2 tq)).1 ∧
    (confidenceCompletionAdjust c (completionRate qa1 tq)).1 ≤
      (confidenceCompletionAdjust c (completionRate qa2 tq)).1 := by
  have htq' : (0 : ℚ) < (tq : ℚ) := by exact_mod_cast Nat.pos_of_ne_zero htq
  have hqa' : (qa1 : ℚ) ≤ (qa2 : ℚ) := by exact_mod_cast hqa
  have hx : (qa1 : ℚ) / (tq : ℚ) ≤ (qa2 : ℚ) / (tq : ℚ) := by gcongr
  rw [completionRate_pos_eq htq, completionRate_pos_eq htq]
  exact ⟨bodyCompletionBand_mono hx hqa, grammarCompletionAdjust_mono hg hx,
    skillsCompletionAdjust_mono hs hx, confidenceCompletionAdjust_mono hc hx⟩

/-- Witness for claim C9 at 3 versus 5 of 7 questions answered, base 50. -/
theorem c9_completion_band_monotone_witness :
    (bodyCompletionBand 3 (completionRate 3 7)).score ≤
      (bodyCompletionBand 5 (completionRate 5 7)).score ∧
    (grammarCompletionAdjust 50 (completionRate 3 7)).1 ≤
      (grammarCompletionAdjust 50 (completionRate 5 7)).1 ∧
    (skillsCompletionAdjust 50 (completionRate 3 7)).1 ≤
      (skillsCompletionAdjust 50 (completionRate 5 7)).1 ∧
    (confidenceCompletionAdjust 50 (completionRate 3 7)).1 ≤
      (confidenceCompletionAdjust 50 (completionRate 5 7)).1 :=
  c9_completion_band_monotone 7 3 5 50 50 50 (by norm_num) (by norm_num) (by norm_num)
    (by norm_num) (by norm_num)

/-- Claim C10: for every interview session whose responses list is empty,
with microphoneUsed = true and questionsAnswered > 0,
analyzeInterviewPerformance returns grammarScore = 0 and skillsScore = 0:
both take their base from the all-zero response profile and every later step
only subtracts, scales down or clamps. -/
theorem c10_empty_responses_zero_grammar_skills (i : InterviewInput)
    (hresp : i.responses = []) (_hmic : i.microphoneUsed = true)
    (_hqa : 0 < i.questionsAnswered) :
    (analyzeInterviewPerformance i).grammarScore = 0 ∧
    (analyzeInterviewPerformance i).skillsScore = 0 := by
  have hra : analyzeResponseContent i.responses i.selectedRole =
      { qualityScore := 0, communicationScore := 0, skillsRelevance := 0, clarity := 0,
        confidence := 0 } := by
    rw [hresp]
    exact analyzeResponseContent_nil _
  constructor
  · rw [analyze_grammar_eq, hra]
    exact grammarBlock_zero _ _ _ _ _ rfl
  · rw [analyze_skills_eq, hra]
    exact skillsBlock_zero _ _ _ _ _ rfl

/-- Witness for claim C10 at a 3-of-7 session with the microphone on. -/
theorem c10_empty_responses_witness :
    (analyzeInterviewPerformance c10Session).grammarScore = 0 ∧
    (analyzeInterviewPerformance c10Session).skillsScore = 0 :=
  c10_empty_responses_zero_grammar_skills c10Session rfl rfl (by norm_num [c10Session])
